import Mathlib

/-!
Verification of `src/yival/cli/utils.py` (YiVal).

The file embeds the two functions of that module — `recursive_asdict` and
`generate_experiment_config_yaml` — as executable Lean definitions and proves
properties of the embedding.

Modelling conventions:

* A Python runtime value is a `Value`: primitives (`str`, `int`, `bool`,
  `pynone`, and `other` for any further object carrying no `asdict`
  attribute), lists, dicts with string keys (all keys occurring in this
  program are strings), `Enum` members, and objects exposing an `asdict`
  method.  Because Python capability checks are structural (`isinstance`,
  `hasattr`), a list, a dict or an `Enum` member may *additionally* carry an
  `asdict` attribute (e.g. via subclassing); the optional second argument of
  `vlist`, `vdict` and `enum` records the value such an `asdict` call would
  return, so that the order of the `isinstance`/`hasattr` checks in
  `recursive_asdict` is observable in the model.  `obj r` is an object whose
  `asdict()` returns `r`.  Dicts are association lists in insertion order,
  mirroring Python dict semantics.

* The component registries (`BaseReader.get_reader`,
  `BaseEvaluator.get_evaluator`, `BaseWrapper.get_wrapper`) and the
  `WrapperConfig` dataclass are imported by `utils.py` from modules that are
  not part of the verified source; they are modelled from the spec as
  name-to-descriptor lookup tables (`Registry`) and as a value object exposing
  its own `asdict` conversion.  A registered class may carry a
  `default_config` object (`PyObj`): an optional attribute holding a Python
  object with a truthiness flag and an attribute dictionary (`__dict__`).

* `yaml.safe_dump` is an external library call; it is treated as an opaque
  serializer.  The embedding therefore returns, in `GenOutput`, exactly the
  data the Python function feeds to the serializer and to string
  concatenation: the fully normalized configuration tree, whether the
  commented `# evaluators: []` / `# wrapper_configs: []` example lines are
  appended, and either the mapping dumped under the `variations` key or
  (when absent) the disabled illustrative variations example.

* The Python code mutates shared state: `default_config["name"] = name`
  writes through `default.__dict__` into the registry-owned default
  configuration object of the evaluator class.  The embedding threads the
  evaluator registry through this loop and returns the post-call registry in
  `GenOutput.evaluatorRegAfter`.
-/

set_option autoImplicit false

/-- A Python runtime value as used by `recursive_asdict`.  See the module
doc-string for the reading of each constructor. -/
inductive Value where
  | str : String → Value
  | int : Int → Value
  | bool : Bool → Value
  | pynone : Value
  | other : Nat → Value
  | vlist : List Value → Option Value → Value
  | vdict : List (String × Value) → Option Value → Value
  | enum : Value → Option Value → Value
  | obj : Value → Value
  deriving Repr

mutual
/-- Embedding of `recursive_asdict` (utils.py lines 12–22).  The branches are
tried in the source order: `isinstance(obj, list)`, `isinstance(obj, dict)`,
`isinstance(obj, Enum)`, `hasattr(obj, 'asdict')`, otherwise the value is
returned unchanged.  List and dict comprehensions build plain lists/dicts,
hence the `Option.none` asdict attribute on the results. -/
def recursive_asdict : Value → Value
  | Value.vlist xs _ => Value.vlist (asdictList xs) Option.none
  | Value.vdict kvs _ => Value.vdict (asdictPairs kvs) Option.none
  | Value.enum v _ => v
  | Value.obj r => r
  | Value.str s => Value.str s
  | Value.int n => Value.int n
  | Value.bool b => Value.bool b
  | Value.pynone => Value.pynone
  | Value.other n => Value.other n

/-- The list comprehension `[recursive_asdict(item) for item in obj]`. -/
def asdictList : List Value → List Value
  | [] => []
  | x :: xs => recursive_asdict x :: asdictList xs

/-- The dict comprehension `{key: recursive_asdict(value) for key, value in obj.items()}`. -/
def asdictPairs : List (String × Value) → List (String × Value)
  | [] => []
  | (k, v) :: kvs => (k, recursive_asdict v) :: asdictPairs kvs
end

theorem asdictList_eq_map : ∀ xs : List Value, asdictList xs = xs.map recursive_asdict := by
  intro xs
  induction xs with
  | nil => rfl
  | cons x xs ih => simp [asdictList, ih]

theorem asdictPairs_eq_map :
    ∀ kvs : List (String × Value),
      asdictPairs kvs = kvs.map (fun kv => (kv.1, recursive_asdict kv.2)) := by
  intro kvs
  induction kvs with
  | nil => rfl
  | cons kv kvs ih => cases kv; simp [asdictPairs, ih]

mutual
/-- `noEnumObj v` holds when `v` is a tree of primitives, plain lists and
plain dicts only: it contains no `Enum` member, no object exposing an
`asdict` capability (in particular no list/dict that carries an `asdict`
attribute), at any depth. -/
def noEnumObj : Value → Bool
  | Value.vlist xs a => a.isNone && noEnumObjList xs
  | Value.vdict kvs a => a.isNone && noEnumObjPairs kvs
  | Value.enum _ _ => false
  | Value.obj _ => false
  | Value.str _ => true
  | Value.int _ => true
  | Value.bool _ => true
  | Value.pynone => true
  | Value.other _ => true

def noEnumObjList : List Value → Bool
  | [] => true
  | x :: xs => noEnumObj x && noEnumObjList xs

def noEnumObjPairs : List (String × Value) → Bool
  | [] => true
  | (_, v) :: kvs => noEnumObj v && noEnumObjPairs kvs
end

mutual
/-- `selfNormalized v` holds when every `Enum` member occurring in `v` has a
plain underlying value and every `asdict`-capable object occurring in `v`
has an `asdict` result that is already plain (`noEnumObj`): such constants
and objects are "trusted to have already normalized themselves" in the sense
of the spec. -/
def selfNormalized : Value → Bool
  | Value.vlist xs _ => selfNormalizedList xs
  | Value.vdict kvs _ => selfNormalizedPairs kvs
  | Value.enum v _ => noEnumObj v
  | Value.obj r => noEnumObj r
  | Value.str _ => true
  | Value.int _ => true
  | Value.bool _ => true
  | Value.pynone => true
  | Value.other _ => true

def selfNormalizedList : List Value → Bool
  | [] => true
  | x :: xs => selfNormalized x && selfNormalizedList xs

def selfNormalizedPairs : List (String × Value) → Bool
  | [] => true
  | (_, v) :: kvs => selfNormalized v && selfNormalizedPairs kvs
end

mutual
/-- Values already free of enums and asdict-capable objects are fixed points
of `recursive_asdict`. -/
theorem asdict_fix : ∀ v : Value, noEnumObj v = true → recursive_asdict v = v
  | Value.vlist xs a, h => by
    simp only [noEnumObj, Bool.and_eq_true, Option.isNone_iff_eq_none] at h
    simp only [recursive_asdict, asdict_fixList xs h.2, h.1]
  | Value.vdict kvs a, h => by
    simp only [noEnumObj, Bool.and_eq_true, Option.isNone_iff_eq_none] at h
    simp only [recursive_asdict, asdict_fixPairs kvs h.2, h.1]
  | Value.str s, _ => rfl
  | Value.int n, _ => rfl
  | Value.bool b, _ => rfl
  | Value.pynone, _ => rfl
  | Value.other n, _ => rfl

theorem asdict_fixList : ∀ xs : List Value, noEnumObjList xs = true → asdictList xs = xs
  | [], _ => rfl
  | x :: xs, h => by
    simp only [noEnumObjList, Bool.and_eq_true] at h
    simp only [asdictList, asdict_fix x h.1, asdict_fixList xs h.2]

theorem asdict_fixPairs :
    ∀ kvs : List (String × Value), noEnumObjPairs kvs = true → asdictPairs kvs = kvs
  | [], _ => rfl
  | (k, v) :: kvs, h => by
    simp only [noEnumObjPairs, Bool.and_eq_true] at h
    simp only [asdictPairs, asdict_fix v h.1, asdict_fixPairs kvs h.2]
end

mutual
/-- On self-normalized inputs, `recursive_asdict` produces a tree free of
enums and asdict-capable objects. -/
theorem asdict_plain : ∀ v : Value, selfNormalized v = true → noEnumObj (recursive_asdict v) = true
  | Value.vlist xs a, h => by
    simp only [selfNormalized] at h
    simp only [recursive_asdict, noEnumObj, Option.isNone_none, Bool.true_and]
    exact asdict_plainList xs h
  | Value.vdict kvs a, h => by
    simp only [selfNormalized] at h
    simp only [recursive_asdict, noEnumObj, Option.isNone_none, Bool.true_and]
    exact asdict_plainPairs kvs h
  | Value.enum v a, h => h
  | Value.obj r, h => h
  | Value.str s, _ => rfl
  | Value.int n, _ => rfl
  | Value.bool b, _ => rfl
  | Value.pynone, _ => rfl
  | Value.other n, _ => rfl

theorem asdict_plainList :
    ∀ xs : List Value, selfNormalizedList xs = true → noEnumObjList (asdictList xs) = true
  | [], _ => rfl
  | x :: xs, h => by
    simp only [selfNormalizedList, Bool.and_eq_true] at h
    simp only [asdictList, noEnumObjList, Bool.and_eq_true]
    exact ⟨asdict_plain x h.1, asdict_plainList xs h.2⟩

theorem asdict_plainPairs :
    ∀ kvs : List (String × Value), selfNormalizedPairs kvs = true → noEnumObjPairs (asdictPairs kvs) = true
  | [], _ => rfl
  | (k, v) :: kvs, h => by
    simp only [selfNormalizedPairs, Bool.and_eq_true] at h
    simp only [asdictPairs, noEnumObjPairs, Bool.and_eq_true]
    exact ⟨asdict_plain v h.1, asdict_plainPairs kvs h.2⟩
end

/-- Lookup in a Python dict with string keys (first entry with the key;
keys of dicts built by this program are unique). -/
def dictGet : List (String × Value) → String → Option Value
  | [], _ => Option.none
  | (k2, v) :: rest, k => if k2 = k then Option.some v else dictGet rest k

/-- The Python `key in dict` test. -/
def dictHasKey : List (String × Value) → String → Bool
  | [], _ => false
  | (k2, _) :: rest, k => if k2 = k then true else dictHasKey rest k

/-- Python dict assignment `d[k] = v`: if the key is present its value is
overwritten in place (the key keeps its position), otherwise the pair is
appended at the end, preserving insertion order. -/
def dictSet (kvs : List (String × Value)) (k : String) (v : Value) : List (String × Value) :=
  if dictHasKey kvs k then kvs.map (fun kv => if kv.1 = k then (k, v) else kv)
  else kvs ++ [(k, v)]

/-- Modelled from the spec: a Python object owned by a component class as its
optional `default_config` attribute — `truthy` is the object's truth value
(`if default:`), `attrs` is its `__dict__` in attribute insertion order. -/
structure PyObj where
  truthy : Bool
  attrs : List (String × Value)

/-- Modelled from the spec: an opaque component handle returned by a registry
lookup; it may expose a `default_config` object. -/
structure ComponentClass where
  default_config : Option PyObj

/-- Modelled from the spec: a name-to-component-descriptor lookup table
(the reader / evaluator / wrapper registries imported by `utils.py` are not
part of the verified source). -/
abbrev Registry : Type := List (String × ComponentClass)

/-- Modelled from the spec: `lookup(name) -> optional component handle`,
i.e. `BaseReader.get_reader` / `BaseEvaluator.get_evaluator` /
`BaseWrapper.get_wrapper`. -/
def lookupReg : Registry → String → Option ComponentClass
  | [], _ => Option.none
  | (n, c) :: rest, name => if n = name then Option.some c else lookupReg rest name

/-- Embedding of the inner helper `get_default_config` (utils.py lines
34–41): `getattr(component_class, "default_config", None)` followed by
`if default: return default.__dict__` — the truthiness test is on the
default-config *object*, and on success the function returns that object's
live `__dict__`. -/
def get_default_config (component_class : ComponentClass) : Option (List (String × Value)) :=
  match component_class.default_config with
  | Option.some default => if default.truthy then Option.some default.attrs else Option.none
  | Option.none => Option.none

/-- Python truthiness of an `Optional[str]`: `None` and the empty string are
falsy. -/
def truthyOptStr : Option String → Bool
  | Option.none => false
  | Option.some s => !s.isEmpty

/-- Python truthiness of an `Optional[List[...]]`: `None` and the empty list
are falsy. -/
def truthyOptList {α : Type} : Option (List α) → Bool
  | Option.none => false
  | Option.some l => !l.isEmpty

/-- Embedding of the dataset-section construction (utils.py lines 43–52):
starts from `{"source_type": source_type}`; under `if reader_name:` the
*given* name is recorded as the `reader` field before the registry lookup,
and on a lookup hit a truthy, non-empty default configuration is added
verbatim as the `config` field. -/
def dataset_section (readerReg : Registry) (source_type : String)
    (reader_name : Option String) : List (String × Value) :=
  let base := [("source_type", Value.str source_type)]
  match reader_name with
  | Option.none => base
  | Option.some rn =>
    if rn.isEmpty then base
    else
      let base2 := base ++ [("reader", Value.str rn)]
      match lookupReg readerReg rn with
      | Option.none => base2
      | Option.some reader_cls =>
        match get_default_config reader_cls with
        | Option.none => base2
        | Option.some cfg =>
          if cfg.isEmpty then base2
          else base2 ++ [("config", Value.vdict cfg Option.none)]

/-- Update the `default_config.__dict__` of the component registered under
`name` (the effect of writing through the alias that `get_default_config`
returns into the registry-owned object). -/
def updateRegDefault : Registry → String → List (String × Value) → Registry
  | [], _, _ => []
  | (n, c) :: rest, name, attrs =>
    if n = name then
      (n, ComponentClass.mk (c.default_config.map (fun d => PyObj.mk d.truthy attrs))) :: rest
    else (n, c) :: updateRegDefault rest name attrs

/-- Embedding of the evaluator loop (utils.py lines 58–66).  For each name:
on a registry hit with a truthy non-empty default configuration, the name is
written into the default configuration dict (`default_config["name"] = name`
— this writes through `default.__dict__` into the registry-owned object,
hence the threaded registry) and the dict is appended to the evaluators
section.  Returns the registry after the loop and the section. -/
def processEvaluators (evaluatorReg : Registry) : List String → Registry × List Value
  | [] => (evaluatorReg, [])
  | name :: rest =>
    match lookupReg evaluatorReg name with
    | Option.none => processEvaluators evaluatorReg rest
    | Option.some evaluator_cls =>
      match get_default_config evaluator_cls with
      | Option.none => processEvaluators evaluatorReg rest
      | Option.some cfg =>
        if cfg.isEmpty then processEvaluators evaluatorReg rest
        else
          let cfg2 := dictSet cfg "name" (Value.str name)
          let step := processEvaluators (updateRegDefault evaluatorReg name cfg2) rest
          (step.1, Value.vdict cfg2 Option.none :: step.2)

/-- Embedding of the wrapper loop (utils.py lines 68–78): for each name, on a
registry hit an entry `{"name": name, "config": default or {}}` is appended;
misses are skipped. -/
def processWrappers (wrapperReg : Registry) : List String → List Value
  | [] => []
  | name :: rest =>
    match lookupReg wrapperReg name with
    | Option.none => processWrappers wrapperReg rest
    | Option.some wrapper_cls =>
      let cfgVal :=
        match get_default_config wrapper_cls with
        | Option.some cfg => if cfg.isEmpty then Value.vdict [] Option.none else Value.vdict cfg Option.none
        | Option.none => Value.vdict [] Option.none
      Value.vdict [("name", Value.str name), ("config", cfgVal)] Option.none
        :: processWrappers wrapperReg rest

/-- Modelled from the spec: a wrapper-variation config object
(`yival.schemas.experiment_config.WrapperConfig`, not part of the verified
source) exposing its own structure-to-plain-data conversion `asdict`. -/
structure WrapperConfig where
  asdictResult : Value

/-- The `wrapper_config.asdict()` call (utils.py line 105). -/
def WrapperConfig.asdict (w : WrapperConfig) : Value := w.asdictResult

/-- The evaluator pass of `generate_experiment_config_yaml`: the section is
only populated under `if evaluator_names:`; otherwise it stays `[]` and the
registry is untouched. -/
def evaluators_pass (evaluatorReg : Registry)
    (evaluator_names : Option (List String)) : Registry × List Value :=
  if truthyOptList evaluator_names then processEvaluators evaluatorReg (evaluator_names.getD [])
  else (evaluatorReg, [])

/-- The `experiment_config` dict as assembled by utils.py lines 53–84, in
insertion order: `description`, `dataset`, then `wrapper_configs` under
`if wrapper_names:`, then `evaluators` under `if evaluator_names:`, then
`custom_function`. -/
def assembled_config (readerReg evaluatorReg wrapperReg : Registry)
    (custom_function source_type : String) (evaluator_names : Option (List String))
    (reader_name : Option String) (wrapper_names : Option (List String)) :
    List (String × Value) :=
  let ds := dataset_section readerReg source_type reader_name
  let c0 := [("description", Value.str "Generated experiment config"),
             ("dataset", Value.vdict ds Option.none)]
  let c1 :=
    if truthyOptList wrapper_names then
      c0 ++ [("wrapper_configs",
              Value.vlist (processWrappers wrapperReg (wrapper_names.getD [])) Option.none)]
    else c0
  let c2 :=
    if truthyOptList evaluator_names then
      c1 ++ [("evaluators",
              Value.vlist (evaluators_pass evaluatorReg evaluator_names).2 Option.none)]
    else c1
  c2 ++ [("custom_function", Value.str custom_function)]

/-- Everything observable about one call of `generate_experiment_config_yaml`
once `yaml.safe_dump` is taken as an opaque serializer:

* `experimentConfig` — the tree `recursive_asdict(experiment_config)` handed
  to the first `yaml.safe_dump` call;
* `exampleEvaluatorsLine` / `exampleWrapperConfigsLine` — whether the
  commented example lines `# evaluators: []` / `# wrapper_configs: []` are
  appended to the string (utils.py lines 91–94);
* `variationsTree` — `Option.some` of the mapping dumped under the
  `variations` key when `if wrapper_configs:` is truthy, `Option.none` when
  instead the disabled illustrative variations example block is appended
  (utils.py lines 102–119);
* `evaluatorRegAfter` — the evaluator registry after the call (the evaluator
  loop writes into registry-owned default-config objects). -/
structure GenOutput where
  experimentConfig : Value
  exampleEvaluatorsLine : Bool
  exampleWrapperConfigsLine : Bool
  variationsTree : Option Value
  evaluatorRegAfter : Registry

/-- Embedding of `generate_experiment_config_yaml` (utils.py lines 25–124).
The three registries stand for the module-level reader / evaluator / wrapper
registries the Python function consults; the remaining arguments are the
Python parameters in source order. -/
def generate_experiment_config_yaml (readerReg evaluatorReg wrapperReg : Registry)
    (custom_function source_type : String) (evaluator_names : Option (List String))
    (reader_name : Option String) (wrapper_names : Option (List String))
    (wrapper_configs : Option (List WrapperConfig)) : GenOutput :=
  { experimentConfig :=
      recursive_asdict (Value.vdict
        (assembled_config readerReg evaluatorReg wrapperReg custom_function source_type
          evaluator_names reader_name wrapper_names) Option.none)
    exampleEvaluatorsLine := !truthyOptList evaluator_names
    exampleWrapperConfigsLine := !truthyOptList wrapper_names
    variationsTree :=
      if truthyOptList wrapper_configs then
        Option.some (Value.vdict
          [("variations",
            Value.vlist ((wrapper_configs.getD []).map WrapperConfig.asdict) Option.none)]
          Option.none)
      else Option.none
    evaluatorRegAfter := (evaluators_pass evaluatorReg evaluator_names).1 }

/-- The key/value pairs of the serialized experiment configuration. -/
def configPairs (out : GenOutput) : List (String × Value) :=
  match out.experimentConfig with
  | Value.vdict kvs _ => kvs
  | _ => []

/-- The value stored under key `k` of the serialized experiment
configuration. -/
def cfgGet (out : GenOutput) (k : String) : Option Value :=
  dictGet (configPairs out) k

/-- The key/value pairs of the output's dataset section. -/
def datasetPairs (out : GenOutput) : List (String × Value) :=
  match cfgGet out "dataset" with
  | Option.some (Value.vdict kvs _) => kvs
  | _ => []

/-- The output's evaluator list (the value of the `evaluators` key; `[]` when
the key is absent). -/
def evaluatorsList (out : GenOutput) : List Value :=
  match cfgGet out "evaluators" with
  | Option.some (Value.vlist l _) => l
  | _ => []

/-! ### Helper lemmas about the dictionary operations -/

theorem dictGet_asdictPairs (kvs : List (String × Value)) (k : String) :
    dictGet (asdictPairs kvs) k = Option.map recursive_asdict (dictGet kvs k) := by
  induction kvs with
  | nil => rfl
  | cons kv rest ih =>
    obtain ⟨k2, v⟩ := kv
    by_cases h : k2 = k
    · simp [asdictPairs, dictGet, h]
    · simp [asdictPairs, dictGet, h, ih]

theorem dictGet_append_of_hasKey (a b : List (String × Value)) (k : String)
    (h : dictHasKey a k = true) : dictGet (a ++ b) k = dictGet a k := by
  induction a with
  | nil => simp [dictHasKey] at h
  | cons kv rest ih =>
    obtain ⟨k2, v⟩ := kv
    by_cases h2 : k2 = k
    · simp [dictGet, h2]
    · simp only [dictHasKey, if_neg h2] at h
      simp [dictGet, h2, ih h]

theorem dictGet_setKey_map (kvs : List (String × Value)) (k : String) (v : Value)
    (h : dictHasKey kvs k = true) :
    dictGet (kvs.map (fun kv => if kv.1 = k then (k, v) else kv)) k = Option.some v := by
  induction kvs with
  | nil => simp [dictHasKey] at h
  | cons kv rest ih =>
    obtain ⟨k2, w⟩ := kv
    by_cases h2 : k2 = k
    · subst h2
      simp only [List.map_cons]
      simp [dictGet]
    · simp only [dictHasKey, if_neg h2] at h
      simp only [List.map_cons]
      have hred : (if (k2, w).1 = k then (k, v) else (k2, w)) = (k2, w) := if_neg h2
      rw [hred]
      simp only [dictGet, if_neg h2]
      exact ih h

theorem dictGet_append_single (a : List (String × Value)) (k : String) (v : Value)
    (h : dictHasKey a k = false) : dictGet (a ++ [(k, v)]) k = Option.some v := by
  induction a with
  | nil => simp [dictGet]
  | cons kv rest ih =>
    obtain ⟨k2, w⟩ := kv
    by_cases h2 : k2 = k
    · simp [dictHasKey, h2] at h
    · simp only [dictHasKey, if_neg h2] at h
      simp [dictGet, h2, ih h]

/-- `d[k] = v` makes `d[k]` return `v`. -/
theorem dictGet_dictSet_self (kvs : List (String × Value)) (k : String) (v : Value) :
    dictGet (dictSet kvs k v) k = Option.some v := by
  unfold dictSet
  by_cases h : dictHasKey kvs k = true
  · rw [if_pos h]
    exact dictGet_setKey_map kvs k v h
  · rw [if_neg h]
    exact dictGet_append_single kvs k v (Bool.eq_false_iff.mpr (fun hc => h hc))

/-! ### Helper lemmas about the registries -/

/-- Writing a default configuration back into the registry does not make any
absent name present. -/
theorem lookupReg_updateRegDefault_none (reg : Registry) (n : String)
    (attrs : List (String × Value)) (m : String) (h : lookupReg reg m = Option.none) :
    lookupReg (updateRegDefault reg n attrs) m = Option.none := by
  induction reg with
  | nil => rfl
  | cons e rest ih =>
    obtain ⟨n2, c⟩ := e
    by_cases h2 : n2 = m
    · simp [lookupReg, h2] at h
    · simp only [lookupReg, if_neg h2] at h
      by_cases h3 : n2 = n
      · simp only [updateRegDefault, if_pos h3, lookupReg, if_neg h2]
        exact h
      · simp only [updateRegDefault, if_neg h3, lookupReg, if_neg h2]
        exact ih h

theorem processEvaluators_all_miss (reg : Registry) (names : List String)
    (h : ∀ n, n ∈ names → lookupReg reg n = Option.none) :
    processEvaluators reg names = (reg, []) := by
  induction names with
  | nil => rfl
  | cons n rest ih =>
    have hn := h n (List.mem_cons_self n rest)
    simp only [processEvaluators, hn]
    exact ih (fun m hm => h m (List.mem_cons_of_mem n hm))

theorem processWrappers_all_miss (reg : Registry) (names : List String)
    (h : ∀ n, n ∈ names → lookupReg reg n = Option.none) :
    processWrappers reg names = [] := by
  induction names with
  | nil => rfl
  | cons n rest ih =>
    have hn := h n (List.mem_cons_self n rest)
    simp only [processWrappers, hn]
    exact ih (fun m hm => h m (List.mem_cons_of_mem n hm))

/-! ### Shape lemmas about the generated configuration -/

theorem configPairs_generate (readerReg evaluatorReg wrapperReg : Registry)
    (cf st : String) (en : Option (List String)) (rn : Option String)
    (wn : Option (List String)) (wc : Option (List WrapperConfig)) :
    configPairs (generate_experiment_config_yaml readerReg evaluatorReg wrapperReg cf st en rn wn wc)
      = asdictPairs (assembled_config readerReg evaluatorReg wrapperReg cf st en rn wn) := rfl

theorem cfgGet_dataset_generate (readerReg evaluatorReg wrapperReg : Registry)
    (cf st : String) (en : Option (List String)) (rn : Option String)
    (wn : Option (List String)) (wc : Option (List WrapperConfig)) :
    cfgGet (generate_experiment_config_yaml readerReg evaluatorReg wrapperReg cf st en rn wn wc) "dataset"
      = Option.some (Value.vdict (asdictPairs (dataset_section readerReg st rn)) Option.none) := by
  rcases en with _ | (_ | ⟨e, el⟩) <;> rcases wn with _ | (_ | ⟨w, wl⟩) <;> rfl

theorem datasetPairs_generate (readerReg evaluatorReg wrapperReg : Registry)
    (cf st : String) (en : Option (List String)) (rn : Option String)
    (wn : Option (List String)) (wc : Option (List WrapperConfig)) :
    datasetPairs (generate_experiment_config_yaml readerReg evaluatorReg wrapperReg cf st en rn wn wc)
      = asdictPairs (dataset_section readerReg st rn) := by
  simp only [datasetPairs, cfgGet_dataset_generate]

theorem cfgGet_description_generate (readerReg evaluatorReg wrapperReg : Registry)
    (cf st : String) (en : Option (List String)) (rn : Option String)
    (wn : Option (List String)) (wc : Option (List WrapperConfig)) :
    cfgGet (generate_experiment_config_yaml readerReg evaluatorReg wrapperReg cf st en rn wn wc) "description"
      = Option.some (Value.str "Generated experiment config") := by
  rcases en with _ | (_ | ⟨e, el⟩) <;> rcases wn with _ | (_ | ⟨w, wl⟩) <;> rfl

theorem cfgGet_evaluators_generate (readerReg evaluatorReg wrapperReg : Registry)
    (cf st : String) (en : Option (List String)) (rn : Option String)
    (wn : Option (List String)) (wc : Option (List WrapperConfig)) :
    cfgGet (generate_experiment_config_yaml readerReg evaluatorReg wrapperReg cf st en rn wn wc) "evaluators"
      = (if truthyOptList en then
           Option.some (Value.vlist (asdictList (evaluators_pass evaluatorReg en).2) Option.none)
         else Option.none) := by
  rcases en with _ | (_ | ⟨e, el⟩) <;> rcases wn with _ | (_ | ⟨w, wl⟩) <;> rfl

theorem cfgGet_wrapper_configs_generate (readerReg evaluatorReg wrapperReg : Registry)
    (cf st : String) (en : Option (List String)) (rn : Option String)
    (wn : Option (List String)) (wc : Option (List WrapperConfig)) :
    cfgGet (generate_experiment_config_yaml readerReg evaluatorReg wrapperReg cf st en rn wn wc) "wrapper_configs"
      = (if truthyOptList wn then
           Option.some (Value.vlist (asdictList (processWrappers wrapperReg (wn.getD []))) Option.none)
         else Option.none) := by
  rcases en with _ | (_ | ⟨e, el⟩) <;> rcases wn with _ | (_ | ⟨w, wl⟩) <;> rfl

theorem cfgGet_custom_function_generate (readerReg evaluatorReg wrapperReg : Registry)
    (cf st : String) (en : Option (List String)) (rn : Option String)
    (wn : Option (List String)) (wc : Option (List WrapperConfig)) :
    cfgGet (generate_experiment_config_yaml readerReg evaluatorReg wrapperReg cf st en rn wn wc) "custom_function"
      = Option.some (Value.str cf) := by
  rcases en with _ | (_ | ⟨e, el⟩) <;> rcases wn with _ | (_ | ⟨w, wl⟩) <;> rfl

theorem hasKey_evaluators_generate (readerReg evaluatorReg wrapperReg : Registry)
    (cf st : String) (en : Option (List String)) (rn : Option String)
    (wn : Option (List String)) (wc : Option (List WrapperConfig)) :
    dictHasKey (configPairs (generate_experiment_config_yaml readerReg evaluatorReg wrapperReg cf st en rn wn wc)) "evaluators"
      = truthyOptList en := by
  rcases en with _ | (_ | ⟨e, el⟩) <;> rcases wn with _ | (_ | ⟨w, wl⟩) <;> rfl

theorem hasKey_wrapper_configs_generate (readerReg evaluatorReg wrapperReg : Registry)
    (cf st : String) (en : Option (List String)) (rn : Option String)
    (wn : Option (List String)) (wc : Option (List WrapperConfig)) :
    dictHasKey (configPairs (generate_experiment_config_yaml readerReg evaluatorReg wrapperReg cf st en rn wn wc)) "wrapper_configs"
      = truthyOptList wn := by
  rcases en with _ | (_ | ⟨e, el⟩) <;> rcases wn with _ | (_ | ⟨w, wl⟩) <;> rfl

/-! ### Behaviour of the dataset section and of the component loops -/

theorem dataset_section_no_reader (readerReg : Registry) (st : String) :
    dataset_section readerReg st Option.none = [("source_type", Value.str st)] := rfl

/-- With a non-empty reader name whose registry lookup misses, the dataset
section records the given name under `reader` and nothing else. -/
theorem dataset_section_lookup_miss (readerReg : Registry) (st rn : String)
    (h1 : rn.isEmpty = false) (h2 : lookupReg readerReg rn = Option.none) :
    dataset_section readerReg st (Option.some rn)
      = [("source_type", Value.str st), ("reader", Value.str rn)] := by
  simp [dataset_section, h1, h2]

/-- A lookup hit whose class exposes no truthy default configuration, or a
truthy one with an empty attribute dict, adds no `config` field. -/
theorem dataset_section_hit_no_config (readerReg : Registry) (st rn : String)
    (cls : ComponentClass) (h1 : rn.isEmpty = false)
    (h2 : lookupReg readerReg rn = Option.some cls)
    (h3 : ∀ cfg, get_default_config cls = Option.some cfg → cfg.isEmpty = true) :
    dataset_section readerReg st (Option.some rn)
      = [("source_type", Value.str st), ("reader", Value.str rn)] := by
  simp only [dataset_section, h1, Bool.false_eq_true, if_false, h2]
  cases hd : get_default_config cls with
  | none => rfl
  | some cfg => simp [h3 cfg hd]

theorem processEvaluators_cons_miss (reg : Registry) (n : String) (rest : List String)
    (h : lookupReg reg n = Option.none) :
    processEvaluators reg (n :: rest) = processEvaluators reg rest := by
  simp [processEvaluators, h]

theorem processEvaluators_cons_no_config (reg : Registry) (n : String) (rest : List String)
    (cls : ComponentClass) (h : lookupReg reg n = Option.some cls)
    (h2 : get_default_config cls = Option.none) :
    processEvaluators reg (n :: rest) = processEvaluators reg rest := by
  simp [processEvaluators, h, h2]

theorem processEvaluators_cons_empty_config (reg : Registry) (n : String) (rest : List String)
    (cls : ComponentClass) (cfg : List (String × Value))
    (h : lookupReg reg n = Option.some cls)
    (h2 : get_default_config cls = Option.some cfg) (h3 : cfg.isEmpty = true) :
    processEvaluators reg (n :: rest) = processEvaluators reg rest := by
  simp [processEvaluators, h, h2, h3]

theorem processEvaluators_cons_hit (reg : Registry) (n : String) (rest : List String)
    (cls : ComponentClass) (cfg : List (String × Value))
    (h : lookupReg reg n = Option.some cls)
    (h2 : get_default_config cls = Option.some cfg) (h3 : cfg.isEmpty = false) :
    processEvaluators reg (n :: rest)
      = ((processEvaluators (updateRegDefault reg n (dictSet cfg "name" (Value.str n))) rest).1,
         Value.vdict (dictSet cfg "name" (Value.str n)) Option.none
           :: (processEvaluators (updateRegDefault reg n (dictSet cfg "name" (Value.str n))) rest).2) := by
  simp [processEvaluators, h, h2, h3]

theorem processWrappers_cons_hit (reg : Registry) (n : String) (rest : List String)
    (cls : ComponentClass) (h : lookupReg reg n = Option.some cls) :
    processWrappers reg (n :: rest)
      = Value.vdict [("name", Value.str n),
          ("config",
            match get_default_config cls with
            | Option.some cfg => if cfg.isEmpty then Value.vdict [] Option.none else Value.vdict cfg Option.none
            | Option.none => Value.vdict [] Option.none)] Option.none
        :: processWrappers reg rest := by
  simp [processWrappers, h]

theorem cfgGet_evaluators_generate_cons (readerReg evaluatorReg wrapperReg : Registry)
    (cf st : String) (e : String) (el : List String) (rn : Option String)
    (wn : Option (List String)) (wc : Option (List WrapperConfig)) :
    cfgGet (generate_experiment_config_yaml readerReg evaluatorReg wrapperReg cf st
        (Option.some (e :: el)) rn wn wc) "evaluators"
      = Option.some (Value.vlist (asdictList (processEvaluators evaluatorReg (e :: el)).2) Option.none) := by
  rcases wn with _ | (_ | ⟨w, wl⟩) <;> rfl

theorem cfgGet_wrapper_configs_generate_cons (readerReg evaluatorReg wrapperReg : Registry)
    (cf st : String) (en : Option (List String)) (rn : Option String)
    (w : String) (wl : List String) (wc : Option (List WrapperConfig)) :
    cfgGet (generate_experiment_config_yaml readerReg evaluatorReg wrapperReg cf st
        en rn (Option.some (w :: wl)) wc) "wrapper_configs"
      = Option.some (Value.vlist (asdictList (processWrappers wrapperReg (w :: wl))) Option.none) := by
  rcases en with _ | (_ | ⟨e, el⟩) <;> rfl

/-! ### The claims -/

/-- C5 (confirmed): `recursive_asdict` checks its argument in the fixed
source order with first match winning.  The conjuncts are its five cases:
an ordered sequence is converted elementwise by recursion, a keyed mapping
has each value converted by recursion with keys unchanged, an enumerated
constant becomes its underlying value without further recursion, an
asdict-capable object becomes its `asdict()` result without further
recursion, and any other value is returned unchanged.  The binder `a` is
the optional `asdict` attribute of a list / dict / enum value: the list,
dict and enum equations hold for *any* `a`, which is exactly the
first-match-wins order of the source (e.g. an `Enum` member that also has
an `asdict` attribute is mapped to its underlying value, because the
`isinstance(obj, Enum)` check precedes `hasattr(obj, 'asdict')`). -/
theorem C5_fixed_match_order :
    (∀ (xs : List Value) (a : Option Value),
       recursive_asdict (Value.vlist xs a) = Value.vlist (xs.map recursive_asdict) Option.none)
    ∧ (∀ (kvs : List (String × Value)) (a : Option Value),
       recursive_asdict (Value.vdict kvs a)
         = Value.vdict (kvs.map (fun kv => (kv.1, recursive_asdict kv.2))) Option.none)
    ∧ (∀ (v : Value) (a : Option Value), recursive_asdict (Value.enum v a) = v)
    ∧ (∀ r : Value, recursive_asdict (Value.obj r) = r)
    ∧ (∀ s : String, recursive_asdict (Value.str s) = Value.str s)
    ∧ (∀ n : Int, recursive_asdict (Value.int n) = Value.int n)
    ∧ (∀ b : Bool, recursive_asdict (Value.bool b) = Value.bool b)
    ∧ recursive_asdict Value.pynone = Value.pynone
    ∧ (∀ n : Nat, recursive_asdict (Value.other n) = Value.other n) := by
  refine ⟨?_, ?_, ?_, ?_, ?_, ?_, ?_, rfl, ?_⟩ <;> intros <;>
    simp [recursive_asdict, asdictList_eq_map, asdictPairs_eq_map]

/-- C3 (counterexample): the claim fails as stated.  The input
`Value.obj (Value.enum (Value.str "x") Option.none)` — an object whose
`asdict()` returns an `Enum` member whose underlying value is the primitive
string `"x"` — is built from the five allowed categories, yet
`recursive_asdict` maps it to the `Enum` member itself (the `asdict` result
is not recursed into), so the output contains an enumerated-constant
instance and a second application changes the value again. -/
theorem C3_counterexample :
    ¬ (noEnumObj (recursive_asdict (Value.obj (Value.enum (Value.str "x") Option.none))) = true
       ∧ recursive_asdict (recursive_asdict (Value.obj (Value.enum (Value.str "x") Option.none)))
           = recursive_asdict (Value.obj (Value.enum (Value.str "x") Option.none))) :=
  fun h => Bool.noConfusion h.1

/-- C3 (amended): for every acyclic, finite input built from sequences,
keyed mappings, enumerated constants, asdict-capable objects and primitives
*in which every enumerated constant's underlying value and every object's
`asdict()` result is itself already plain* (`selfNormalized`), the output of
`recursive_asdict` contains no enumerated-constant instance and no
asdict-capable object instance, and `recursive_asdict` is idempotent on such
inputs. -/
theorem C3_output_plain_and_idempotent (v : Value) (h : selfNormalized v = true) :
    noEnumObj (recursive_asdict v) = true
    ∧ recursive_asdict (recursive_asdict v) = recursive_asdict v :=
  have hp : noEnumObj (recursive_asdict v) = true := asdict_plain v h
  ⟨hp, asdict_fix (recursive_asdict v) hp⟩

/-- Witness for C3: a concrete nested input containing an enum constant and
an asdict-capable object, both self-normalized. -/
theorem C3_witness :
    selfNormalized (Value.vdict
        [("a", Value.enum (Value.int 1) Option.none),
         ("b", Value.obj (Value.vlist [Value.str "s"] Option.none))] Option.none) = true
    ∧ (noEnumObj (recursive_asdict (Value.vdict
          [("a", Value.enum (Value.int 1) Option.none),
           ("b", Value.obj (Value.vlist [Value.str "s"] Option.none))] Option.none)) = true
       ∧ recursive_asdict (recursive_asdict (Value.vdict
            [("a", Value.enum (Value.int 1) Option.none),
             ("b", Value.obj (Value.vlist [Value.str "s"] Option.none))] Option.none))
           = recursive_asdict (Value.vdict
              [("a", Value.enum (Value.int 1) Option.none),
               ("b", Value.obj (Value.vlist [Value.str "s"] Option.none))] Option.none)) :=
  ⟨rfl, C3_output_plain_and_idempotent _ rfl⟩

/-- C1 (counterexample): the claim fails as stated.  With an empty reader
registry and the (non-existent) reader name `"missing_reader"`, the
generated dataset section *does* contain a `reader` field: utils.py line 47
writes `dataset_section["reader"] = reader_name` before the registry lookup
on line 48, so the field is present even when the lookup misses. -/
theorem C1_counterexample :
    ¬ (dictHasKey (datasetPairs (generate_experiment_config_yaml [] [] [] "my_func" "dataset"
          Option.none (Option.some "missing_reader") Option.none Option.none)) "reader" = false
       ∧ dictHasKey (datasetPairs (generate_experiment_config_yaml [] [] [] "my_func" "dataset"
          Option.none (Option.some "missing_reader") Option.none Option.none)) "config" = false) :=
  fun h => Bool.noConfusion h.1

/-- C1 (amended): for every call with a non-empty reader name that does not
exist in the reader registry, the output's dataset section consists of
exactly the `source_type` field and a `reader` field holding the given name —
in particular it contains no `config` field — and generation does not fail
(the embedding is a total function).  (A reader name equal to the empty
string is falsy in Python and is treated like an absent name, so neither
field is emitted for it.) -/
theorem C1_missing_reader_dataset (readerReg evaluatorReg wrapperReg : Registry)
    (cf st rn : String) (en : Option (List String)) (wn : Option (List String))
    (wc : Option (List WrapperConfig)) (h1 : rn.isEmpty = false)
    (h2 : lookupReg readerReg rn = Option.none) :
    datasetPairs (generate_experiment_config_yaml readerReg evaluatorReg wrapperReg cf st en
        (Option.some rn) wn wc)
      = [("source_type", Value.str st), ("reader", Value.str rn)] := by
  rw [datasetPairs_generate, dataset_section_lookup_miss readerReg st rn h1 h2]
  rfl

/-- Witness for C1 at a concrete input. -/
theorem C1_witness :
    ("missing_reader" : String).isEmpty = false
    ∧ lookupReg [] "missing_reader" = Option.none
    ∧ datasetPairs (generate_experiment_config_yaml [] [] [] "my_func" "ds" Option.none
          (Option.some "missing_reader") Option.none Option.none)
        = [("source_type", Value.str "ds"), ("reader", Value.str "missing_reader")] :=
  ⟨rfl, rfl,
   C1_missing_reader_dataset [] [] [] "my_func" "ds" "missing_reader" Option.none Option.none
     Option.none rfl rfl⟩

/-- C2 (code bug): `generate_experiment_config_yaml` is *not* side-effect
free.  `get_default_config` returns `default.__dict__` — the live attribute
dictionary of the registry-owned default-config object — and the evaluator
loop executes `default_config["name"] = name` (utils.py line 64) on that
alias, injecting a `name` attribute into the evaluator class's own
`default_config` object.  At the concrete input below (an evaluator
registry holding one evaluator `"accuracy"` whose default configuration has
the single attribute `metric = "f1"`), the registry after the call carries
the extra `name` attribute and therefore differs from the registry before
the call, contradicting the claim. -/
theorem C2_registry_default_mutated :
    (generate_experiment_config_yaml []
        [("accuracy", ComponentClass.mk (Option.some (PyObj.mk true [("metric", Value.str "f1")])))]
        [] "my_func" "dataset" (Option.some ["accuracy"]) Option.none Option.none
        Option.none).evaluatorRegAfter
      = [("accuracy", ComponentClass.mk (Option.some (PyObj.mk true
           [("metric", Value.str "f1"), ("name", Value.str "accuracy")])))]
    ∧ (generate_experiment_config_yaml []
        [("accuracy", ComponentClass.mk (Option.some (PyObj.mk true [("metric", Value.str "f1")])))]
        [] "my_func" "dataset" (Option.some ["accuracy"]) Option.none Option.none
        Option.none).evaluatorRegAfter
      ≠ [("accuracy", ComponentClass.mk (Option.some (PyObj.mk true [("metric", Value.str "f1")])))] := by
  refine ⟨rfl, ?_⟩
  intro h
  have h2 := congrArg (fun r : Registry =>
    r.map (fun e => match e.2.default_config with
      | Option.some d => d.attrs.length
      | Option.none => 0)) h
  exact absurd h2 (by decide)

/-- C9 (confirmed): with only the required code-snippet argument (all
optional arguments absent, `source_type` at its default `"dataset"`), the
output's dataset section holds only the default source-type label, the
disabled example lines for both `evaluators` and `wrapper_configs` are
appended, and the disabled illustrative variations example is appended
instead of a dumped `variations` mapping. -/
theorem C9_defaults_only (readerReg evaluatorReg wrapperReg : Registry) (cf : String) :
    datasetPairs (generate_experiment_config_yaml readerReg evaluatorReg wrapperReg cf "dataset"
        Option.none Option.none Option.none Option.none)
      = [("source_type", Value.str "dataset")]
    ∧ (generate_experiment_config_yaml readerReg evaluatorReg wrapperReg cf "dataset"
        Option.none Option.none Option.none Option.none).exampleEvaluatorsLine = true
    ∧ (generate_experiment_config_yaml readerReg evaluatorReg wrapperReg cf "dataset"
        Option.none Option.none Option.none Option.none).exampleWrapperConfigsLine = true
    ∧ (generate_experiment_config_yaml readerReg evaluatorReg wrapperReg cf "dataset"
        Option.none Option.none Option.none Option.none).variationsTree = Option.none :=
  ⟨rfl, rfl, rfl, rfl⟩

/-- C4 (counterexample): the claim fails as stated.  In an evaluator
registry holding `"resolved_eval"` as a class *without* a default
configuration, the two-element list `["resolved_eval", "missing_eval"]` has
exactly one name that resolves, yet the output's evaluator list is empty
(the loop only appends an entry when the resolved class exposes a truthy,
non-empty default configuration), not of length one. -/
theorem C4_counterexample :
    ¬ ((evaluatorsList (generate_experiment_config_yaml []
          [("resolved_eval", ComponentClass.mk Option.none)] [] "my_func" "dataset"
          (Option.some ["resolved_eval", "missing_eval"]) Option.none Option.none
          Option.none)).length = 1) := by
  decide

/-- C4 (amended): for every call with a two-element evaluator-name list in
which exactly one name resolves in the evaluator registry, *and the resolved
evaluator exposes a truthy default configuration with a non-empty attribute
dictionary*, the output's evaluator list contains exactly one entry, and that
entry's `name` field equals the resolved name.  Both orders of the
two-element list are covered. -/
theorem C4_single_resolved_evaluator (readerReg evaluatorReg wrapperReg : Registry)
    (cf st n1 n2 : String) (rn : Option String) (wn : Option (List String))
    (wc : Option (List WrapperConfig)) (cls : ComponentClass) (cfg : List (String × Value))
    (hres : lookupReg evaluatorReg n1 = Option.some cls)
    (hcfg : get_default_config cls = Option.some cfg)
    (hne : cfg.isEmpty = false)
    (hmiss : lookupReg evaluatorReg n2 = Option.none) :
    (evaluatorsList (generate_experiment_config_yaml readerReg evaluatorReg wrapperReg cf st
         (Option.some [n1, n2]) rn wn wc)
       = [Value.vdict (asdictPairs (dictSet cfg "name" (Value.str n1))) Option.none]
     ∧ evaluatorsList (generate_experiment_config_yaml readerReg evaluatorReg wrapperReg cf st
         (Option.some [n2, n1]) rn wn wc)
       = [Value.vdict (asdictPairs (dictSet cfg "name" (Value.str n1))) Option.none])
    ∧ dictGet (asdictPairs (dictSet cfg "name" (Value.str n1))) "name"
        = Option.some (Value.str n1) := by
  have h5 : lookupReg (updateRegDefault evaluatorReg n1 (dictSet cfg "name" (Value.str n1))) n2
      = Option.none :=
    lookupReg_updateRegDefault_none evaluatorReg n1 (dictSet cfg "name" (Value.str n1)) n2 hmiss
  have e1 : (processEvaluators evaluatorReg [n1, n2]).2
      = [Value.vdict (dictSet cfg "name" (Value.str n1)) Option.none] := by
    rw [processEvaluators_cons_hit evaluatorReg n1 [n2] cls cfg hres hcfg hne,
        processEvaluators_cons_miss _ n2 [] h5]
    rfl
  have e2 : (processEvaluators evaluatorReg [n2, n1]).2
      = [Value.vdict (dictSet cfg "name" (Value.str n1)) Option.none] := by
    rw [processEvaluators_cons_miss evaluatorReg n2 [n1] hmiss,
        processEvaluators_cons_hit evaluatorReg n1 [] cls cfg hres hcfg hne]
    rfl
  refine ⟨⟨?_, ?_⟩, ?_⟩
  · simp only [evaluatorsList, cfgGet_evaluators_generate_cons, e1, asdictList, recursive_asdict]
  · simp only [evaluatorsList, cfgGet_evaluators_generate_cons, e2, asdictList, recursive_asdict]
  · rw [dictGet_asdictPairs, dictGet_dictSet_self]
    rfl

/-- Witness for C4 at a concrete input: evaluator `"good_eval"` resolves and
has default configuration `{metric: "f1"}`; `"missing_eval"` does not
resolve. -/
theorem C4_witness :
    (evaluatorsList (generate_experiment_config_yaml []
         [("good_eval", ComponentClass.mk (Option.some (PyObj.mk true [("metric", Value.str "f1")])))]
         [] "my_func" "dataset" (Option.some ["good_eval", "missing_eval"]) Option.none
         Option.none Option.none)
       = [Value.vdict (asdictPairs (dictSet [("metric", Value.str "f1")] "name"
           (Value.str "good_eval"))) Option.none]
     ∧ evaluatorsList (generate_experiment_config_yaml []
         [("good_eval", ComponentClass.mk (Option.some (PyObj.mk true [("metric", Value.str "f1")])))]
         [] "my_func" "dataset" (Option.some ["missing_eval", "good_eval"]) Option.none
         Option.none Option.none)
       = [Value.vdict (asdictPairs (dictSet [("metric", Value.str "f1")] "name"
           (Value.str "good_eval"))) Option.none])
    ∧ dictGet (asdictPairs (dictSet [("metric", Value.str "f1")] "name" (Value.str "good_eval"))) "name"
        = Option.some (Value.str "good_eval") :=
  C4_single_resolved_evaluator []
    [("good_eval", ComponentClass.mk (Option.some (PyObj.mk true [("metric", Value.str "f1")])))]
    [] "my_func" "dataset" "good_eval" "missing_eval" Option.none Option.none Option.none
    (ComponentClass.mk (Option.some (PyObj.mk true [("metric", Value.str "f1")])))
    [("metric", Value.str "f1")] rfl rfl rfl rfl

/-- `Optional[List[...]]` truthiness characterised: truthy exactly when the
argument is a present, non-empty list. -/
theorem truthyOptList_iff {α : Type} (o : Option (List α)) :
    truthyOptList o = true ↔ ∃ l, o = Option.some l ∧ l ≠ [] := by
  cases o with
  | none => simp [truthyOptList]
  | some l =>
    cases l with
    | nil => simp [truthyOptList]
    | cons x xs => simp [truthyOptList]

/-- C7 (confirmed): the `evaluators` key appears in the serialized
configuration if and only if the evaluator-name list argument was truthy —
present and non-empty — at call time (even when every lookup misses, in
which case its value is the empty list), and likewise `wrapper_configs`
appears iff the wrapper-name list argument was present and non-empty.  The
last two conjuncts characterise the truthiness test as exactly
"non-empty list supplied". -/
theorem C7_keys_iff_names_nonempty (readerReg evaluatorReg wrapperReg : Registry)
    (cf st : String) (en : Option (List String)) (rn : Option String)
    (wn : Option (List String)) (wc : Option (List WrapperConfig)) :
    dictHasKey (configPairs (generate_experiment_config_yaml readerReg evaluatorReg wrapperReg
        cf st en rn wn wc)) "evaluators" = truthyOptList en
    ∧ dictHasKey (configPairs (generate_experiment_config_yaml readerReg evaluatorReg wrapperReg
        cf st en rn wn wc)) "wrapper_configs" = truthyOptList wn
    ∧ (truthyOptList en = true ↔ ∃ l, en = Option.some l ∧ l ≠ [])
    ∧ (truthyOptList wn = true ↔ ∃ l, wn = Option.some l ∧ l ≠ []) :=
  ⟨hasKey_evaluators_generate readerReg evaluatorReg wrapperReg cf st en rn wn wc,
   hasKey_wrapper_configs_generate readerReg evaluatorReg wrapperReg cf st en rn wn wc,
   truthyOptList_iff en, truthyOptList_iff wn⟩

/-- C6 (confirmed): `generate_experiment_config_yaml` cannot fail — the
embedding is a total function (the source is straight-line code with no
`raise`; the only conditional paths are the registry lookups) — and every
registry lookup miss is handled by silent omission: when the reader name (if
any) misses, the dataset section carries no `config` field; when every
evaluator name misses, the `evaluators` value is the empty list (present
exactly when the name list was truthy); when every wrapper name misses, the
`wrapper_configs` value is likewise empty.  The mandatory `description` and
`custom_function` fields are always produced. -/
theorem C6_lookup_misses_degrade_to_omission (readerReg evaluatorReg wrapperReg : Registry)
    (cf st : String) (en : Option (List String)) (rn : Option String)
    (wn : Option (List String)) (wc : Option (List WrapperConfig))
    (hr : ∀ n, rn = Option.some n → lookupReg readerReg n = Option.none)
    (he : ∀ n, n ∈ en.getD [] → lookupReg evaluatorReg n = Option.none)
    (hw : ∀ n, n ∈ wn.getD [] → lookupReg wrapperReg n = Option.none) :
    cfgGet (generate_experiment_config_yaml readerReg evaluatorReg wrapperReg cf st en rn wn wc)
        "description" = Option.some (Value.str "Generated experiment config")
    ∧ cfgGet (generate_experiment_config_yaml readerReg evaluatorReg wrapperReg cf st en rn wn wc)
        "custom_function" = Option.some (Value.str cf)
    ∧ dictHasKey (datasetPairs (generate_experiment_config_yaml readerReg evaluatorReg wrapperReg
        cf st en rn wn wc)) "config" = false
    ∧ cfgGet (generate_experiment_config_yaml readerReg evaluatorReg wrapperReg cf st en rn wn wc)
        "evaluators"
      = (if truthyOptList en then Option.some (Value.vlist [] Option.none) else Option.none)
    ∧ cfgGet (generate_experiment_config_yaml readerReg evaluatorReg wrapperReg cf st en rn wn wc)
        "wrapper_configs"
      = (if truthyOptList wn then Option.some (Value.vlist [] Option.none) else Option.none) := by
  refine ⟨cfgGet_description_generate readerReg evaluatorReg wrapperReg cf st en rn wn wc,
          cfgGet_custom_function_generate readerReg evaluatorReg wrapperReg cf st en rn wn wc,
          ?_, ?_, ?_⟩
  · rw [datasetPairs_generate]
    cases rn with
    | none => rfl
    | some r =>
      cases hrE : r.isEmpty with
      | false =>
        rw [dataset_section_lookup_miss readerReg st r hrE (hr r rfl)]
        rfl
      | true =>
        simp only [dataset_section, hrE]
        rfl
  · cases en with
    | none =>
      rw [cfgGet_evaluators_generate]
      rfl
    | some l =>
      cases l with
      | nil =>
        rw [cfgGet_evaluators_generate]
        rfl
      | cons e el =>
        rw [cfgGet_evaluators_generate_cons,
            processEvaluators_all_miss evaluatorReg (e :: el) (fun n hn => he n hn)]
        rfl
  · cases wn with
    | none =>
      rw [cfgGet_wrapper_configs_generate]
      rfl
    | some l =>
      cases l with
      | nil =>
        rw [cfgGet_wrapper_configs_generate]
        rfl
      | cons w wl =>
        rw [cfgGet_wrapper_configs_generate_cons,
            processWrappers_all_miss wrapperReg (w :: wl) (fun n hn => hw n hn)]
        rfl

/-- Witness for C6: empty registries (so every lookup misses) with all
optional arguments supplied. -/
theorem C6_witness :
    cfgGet (generate_experiment_config_yaml [] [] [] "my_func" "ds" (Option.some ["e1"])
        (Option.some "r1") (Option.some ["w1"]) Option.none) "description"
      = Option.some (Value.str "Generated experiment config")
    ∧ cfgGet (generate_experiment_config_yaml [] [] [] "my_func" "ds" (Option.some ["e1"])
        (Option.some "r1") (Option.some ["w1"]) Option.none) "custom_function"
      = Option.some (Value.str "my_func")
    ∧ dictHasKey (datasetPairs (generate_experiment_config_yaml [] [] [] "my_func" "ds"
        (Option.some ["e1"]) (Option.some "r1") (Option.some ["w1"]) Option.none)) "config" = false
    ∧ cfgGet (generate_experiment_config_yaml [] [] [] "my_func" "ds" (Option.some ["e1"])
        (Option.some "r1") (Option.some ["w1"]) Option.none) "evaluators"
      = (if truthyOptList (Option.some ["e1"]) then Option.some (Value.vlist [] Option.none)
         else Option.none)
    ∧ cfgGet (generate_experiment_config_yaml [] [] [] "my_func" "ds" (Option.some ["e1"])
        (Option.some "r1") (Option.some ["w1"]) Option.none) "wrapper_configs"
      = (if truthyOptList (Option.some ["w1"]) then Option.some (Value.vlist [] Option.none)
         else Option.none) :=
  C6_lookup_misses_degrade_to_omission [] [] [] "my_func" "ds" (Option.some ["e1"])
    (Option.some "r1") (Option.some ["w1"]) Option.none
    (fun _ _ => rfl) (fun _ _ => rfl) (fun _ _ => rfl)

/-- C8 (confirmed): with a non-empty list of wrapper-variation config
objects, the mapping dumped after the variations comment block has a single
`variations` key whose value is the list with exactly one entry per supplied
object, each entry being that object's own `asdict()` result (the list is
serialized with `default_flow_style=False`, i.e. block style); with no such
objects (absent argument or empty list, both falsy), no `variations`
mapping is dumped and the disabled illustrative example is appended
instead (`variationsTree = Option.none`). -/
theorem C8_variations_from_wrapper_configs (readerReg evaluatorReg wrapperReg : Registry)
    (cf st : String) (en : Option (List String)) (rn : Option String)
    (wn : Option (List String)) (wcs : List WrapperConfig) :
    (wcs ≠ [] →
       (generate_experiment_config_yaml readerReg evaluatorReg wrapperReg cf st en rn wn
           (Option.some wcs)).variationsTree
         = Option.some (Value.vdict
             [("variations", Value.vlist (wcs.map WrapperConfig.asdict) Option.none)] Option.none)
       ∧ (wcs.map WrapperConfig.asdict).length = wcs.length)
    ∧ (generate_experiment_config_yaml readerReg evaluatorReg wrapperReg cf st en rn wn
        Option.none).variationsTree = Option.none
    ∧ (generate_experiment_config_yaml readerReg evaluatorReg wrapperReg cf st en rn wn
        (Option.some [])).variationsTree = Option.none := by
  refine ⟨?_, rfl, rfl⟩
  intro h
  cases wcs with
  | nil => exact absurd rfl h
  | cons w ws => exact ⟨rfl, by simp⟩

/-- Witness for C8 at a concrete one-element list of wrapper-variation
config objects. -/
theorem C8_witness :
    (generate_experiment_config_yaml [] [] [] "my_func" "ds" Option.none Option.none Option.none
        (Option.some [WrapperConfig.mk (Value.vdict [("name", Value.str "w")] Option.none)])).variationsTree
      = Option.some (Value.vdict
          [("variations", Value.vlist
            ([WrapperConfig.mk (Value.vdict [("name", Value.str "w")] Option.none)].map
              WrapperConfig.asdict) Option.none)] Option.none)
    ∧ ([WrapperConfig.mk (Value.vdict [("name", Value.str "w")] Option.none)].map
        WrapperConfig.asdict).length
      = [WrapperConfig.mk (Value.vdict [("name", Value.str "w")] Option.none)].length :=
  (C8_variations_from_wrapper_configs [] [] [] "my_func" "ds" Option.none Option.none Option.none
      [WrapperConfig.mk (Value.vdict [("name", Value.str "w")] Option.none)]).1
    (List.cons_ne_nil _ _)

/-- C10 (confirmed): a component whose registered class has a
`default_config` object with an empty attribute dictionary is treated
exactly as one exposing no default configuration, because the callers test
the truthiness of the *returned dict* (`if default_config:`), which is falsy
both for `None` and for `{}`: a found reader with such a default adds no
`config` field to the dataset section, a found evaluator with such a
default contributes no entry to the evaluator list, and a found wrapper
with such a default receives an empty mapping as its `config`.  (The
conjuncts hold for any truthiness of the default object itself: a falsy
default object makes `get_default_config` return `None`, with the same
observable outcome.) -/
theorem C10_empty_default_config :
    (∀ (readerReg evaluatorReg wrapperReg : Registry) (cf st rn : String)
       (en wn : Option (List String)) (wc : Option (List WrapperConfig))
       (cls : ComponentClass) (d : PyObj),
       rn.isEmpty = false → lookupReg readerReg rn = Option.some cls →
       cls.default_config = Option.some d → d.attrs = [] →
       datasetPairs (generate_experiment_config_yaml readerReg evaluatorReg wrapperReg cf st en
           (Option.some rn) wn wc)
         = [("source_type", Value.str st), ("reader", Value.str rn)])
    ∧ (∀ (readerReg evaluatorReg wrapperReg : Registry) (cf st n : String)
       (rn : Option String) (wn : Option (List String)) (wc : Option (List WrapperConfig))
       (cls : ComponentClass) (d : PyObj),
       lookupReg evaluatorReg n = Option.some cls →
       cls.default_config = Option.some d → d.attrs = [] →
       cfgGet (generate_experiment_config_yaml readerReg evaluatorReg wrapperReg cf st
           (Option.some [n]) rn wn wc) "evaluators" = Option.some (Value.vlist [] Option.none))
    ∧ (∀ (readerReg evaluatorReg wrapperReg : Registry) (cf st n : String)
       (en : Option (List String)) (rn : Option String) (wc : Option (List WrapperConfig))
       (cls : ComponentClass) (d : PyObj),
       lookupReg wrapperReg n = Option.some cls →
       cls.default_config = Option.some d → d.attrs = [] →
       cfgGet (generate_experiment_config_yaml readerReg evaluatorReg wrapperReg cf st en rn
           (Option.some [n]) wc) "wrapper_configs"
         = Option.some (Value.vlist [Value.vdict [("name", Value.str n),
             ("config", Value.vdict [] Option.none)] Option.none] Option.none)) := by
  refine ⟨?_, ?_, ?_⟩
  · intro readerReg evaluatorReg wrapperReg cf st rn en wn wc cls d h1 h2 hdc hattrs
    rw [datasetPairs_generate,
        dataset_section_hit_no_config readerReg st rn cls h1 h2 ?_]
    · rfl
    · intro cfg hcg
      simp only [get_default_config, hdc] at hcg
      cases ht : d.truthy with
      | true =>
        rw [ht, if_pos rfl] at hcg
        rw [← Option.some.inj hcg, hattrs]
        rfl
      | false =>
        rw [ht] at hcg
        simp at hcg
  · intro readerReg evaluatorReg wrapperReg cf st n rn wn wc cls d hres hdc hattrs
    have hpe : processEvaluators evaluatorReg [n] = (evaluatorReg, []) := by
      cases ht : d.truthy with
      | false =>
        have hg : get_default_config cls = Option.none := by
          simp [get_default_config, hdc, ht]
        rw [processEvaluators_cons_no_config evaluatorReg n [] cls hres hg]
        rfl
      | true =>
        have hg : get_default_config cls = Option.some d.attrs := by
          simp [get_default_config, hdc, ht]
        rw [processEvaluators_cons_empty_config evaluatorReg n [] cls d.attrs hres hg
            (by rw [hattrs]; rfl)]
        rfl
    rw [cfgGet_evaluators_generate_cons, hpe]
    rfl
  · intro readerReg evaluatorReg wrapperReg cf st n en rn wc cls d hres hdc hattrs
    have hpw : processWrappers wrapperReg [n]
        = [Value.vdict [("name", Value.str n), ("config", Value.vdict [] Option.none)]
            Option.none] := by
      rw [processWrappers_cons_hit wrapperReg n [] cls hres]
      cases ht : d.truthy with
      | false =>
        have hg : get_default_config cls = Option.none := by
          simp [get_default_config, hdc, ht]
        rw [hg]
        rfl
      | true =>
        have hg : get_default_config cls = Option.some d.attrs := by
          simp [get_default_config, hdc, ht]
        rw [hg, hattrs]
        rfl
    rw [cfgGet_wrapper_configs_generate_cons, hpw]
    rfl

/-- Witness for C10 at concrete inputs: in each registry position one
component (`"r"`, `"e"`, `"w"`) whose (truthy) default-config object has an
empty attribute dictionary. -/
theorem C10_witness :
    datasetPairs (generate_experiment_config_yaml
        [("r", ComponentClass.mk (Option.some (PyObj.mk true [])))] [] [] "my_func" "ds"
        Option.none (Option.some "r") Option.none Option.none)
      = [("source_type", Value.str "ds"), ("reader", Value.str "r")]
    ∧ cfgGet (generate_experiment_config_yaml []
        [("e", ComponentClass.mk (Option.some (PyObj.mk true [])))] [] "my_func" "ds"
        (Option.some ["e"]) Option.none Option.none Option.none) "evaluators"
      = Option.some (Value.vlist [] Option.none)
    ∧ cfgGet (generate_experiment_config_yaml [] []
        [("w", ComponentClass.mk (Option.some (PyObj.mk true [])))] "my_func" "ds"
        Option.none Option.none (Option.some ["w"]) Option.none) "wrapper_configs"
      = Option.some (Value.vlist [Value.vdict [("name", Value.str "w"),
          ("config", Value.vdict [] Option.none)] Option.none] Option.none) :=
  ⟨C10_empty_default_config.1 [("r", ComponentClass.mk (Option.some (PyObj.mk true [])))] [] []
     "my_func" "ds" "r" Option.none Option.none Option.none
     (ComponentClass.mk (Option.some (PyObj.mk true []))) (PyObj.mk true []) rfl rfl rfl rfl,
   C10_empty_default_config.2.1 [] [("e", ComponentClass.mk (Option.some (PyObj.mk true [])))] []
     "my_func" "ds" "e" Option.none Option.none Option.none
     (ComponentClass.mk (Option.some (PyObj.mk true []))) (PyObj.mk true []) rfl rfl rfl,
   C10_empty_default_config.2.2 [] [] [("w", ComponentClass.mk (Option.some (PyObj.mk true [])))]
     "my_func" "ds" "w" Option.none Option.none Option.none
     (ComponentClass.mk (Option.some (PyObj.mk true []))) (PyObj.mk true []) rfl rfl rfl⟩
